import Mathlib

set_option linter.unusedVariables false

/-!
Verification of the quiz/Q&A backend of the streamlit-app repository.

The embedded code lives in src/backend/quiz_logic.py, src/backend/qa_logic.py
and src/backend/main.py (the search filter also appears verbatim in
src/backend/api.py).  Python dictionaries and JSON payloads are modelled by
the inductive type JValue below; the upstream chat-completion service is an
explicit parameter of every embedded function, quotiented by how the code
consumes its response (see Completion).  Exceptions are modelled with Except;
every embedded function is total, mirroring the blanket try/except blocks of
the source.
-/

/-- JSON values as produced by Python's json.loads: numbers are modelled as
rationals, objects as the field lists json.loads yields (keys unique, in
insertion order, looked up first-match). -/
inductive JValue where
  | null
  | bool (b : Bool)
  | num (q : Rat)
  | str (s : String)
  | arr (elems : List JValue)
  | obj (fields : List (String × JValue))
deriving Repr

mutual

/-- Python's equality operator on JSON values.  Structural, except that
booleans compare equal to the corresponding numbers (True == 1 in Python).
Python dict equality ignores insertion order; since json.loads never produces
duplicate keys and the code only compares values coming from one parse, the
field lists are compared pointwise. -/
def pyEq : JValue → JValue → Bool
  | .null, .null => true
  | .bool a, .bool b => a == b
  | .bool a, .num q => (if a then (1 : Rat) else 0) == q
  | .num q, .bool a => q == (if a then (1 : Rat) else 0)
  | .num a, .num b => a == b
  | .str a, .str b => a == b
  | .arr xs, .arr ys => pyEqList xs ys
  | .obj xs, .obj ys => pyEqFields xs ys
  | _, _ => false

/-- Pointwise pyEq on lists of values. -/
def pyEqList : List JValue → List JValue → Bool
  | [], [] => true
  | x :: xs, y :: ys => pyEq x y && pyEqList xs ys
  | _, _ => false

/-- Pointwise pyEq on object field lists. -/
def pyEqFields : List (String × JValue) → List (String × JValue) → Bool
  | [], [] => true
  | (k, v) :: xs, (l, w) :: ys => k == l && pyEq v w && pyEqFields xs ys
  | _, _ => false

end

/-- Substring test on character lists: needle occurs contiguously in hay. -/
def listContainsSub (needle : List Char) : List Char → Bool
  | [] => needle.isEmpty
  | c :: tl => needle.isPrefixOf (c :: tl) || listContainsSub needle tl

/-- Python's substring containment, needle in hay, for strings. -/
def strContains (hay needle : String) : Bool :=
  listContainsSub needle.toList hay.toList

/-- Python's containment operator, needle in container, on JSON values.
Membership (via Python equality) for lists; substring for strings, raising
TypeError unless the needle is also a string; key membership for dicts,
raising TypeError when the needle is unhashable (a list or a dict) and
answering false for the hashable non-string needles, since json.loads
produces only string keys; TypeError for the non-container values.
An .error result models a raised exception. -/
def pyIn (needle container : JValue) : Except Unit Bool :=
  match container with
  | .arr xs => .ok (xs.any (fun x => pyEq needle x))
  | .str s =>
      match needle with
      | .str n => .ok (strContains s n)
      | _ => .error ()
  | .obj fields =>
      match needle with
      | .str n => .ok ((fields.lookup n).isSome)
      | .arr _ => .error ()
      | .obj _ => .error ()
      | _ => .ok false
  | .null => .error ()
  | .bool _ => .error ()
  | .num _ => .error ()

/-- Python subscription container[key] with a string key: dict lookup,
raising KeyError when the key is absent and TypeError when the container is
not a dict. -/
def pySubscript (container : JValue) (key : String) : Except Unit JValue :=
  match container with
  | .obj fields =>
      match fields.lookup key with
      | some v => .ok v
      | none => .error ()
  | _ => .error ()

/-- Outcome of one chat-completion call, quotiented by the way the code
consumes the response: each caller uses the returned message only through
json.loads(text.strip()), so a behaviour of the upstream service is either a
raised exception (covering network errors, API errors and malformed response
objects), or returned text whose stripped form is not valid JSON, or returned
text whose stripped form parses to a JSON value. -/
inductive Completion where
  | raises
  | invalidJson
  | json (v : JValue)

/-- Python's truth test, not api_key, applied to
os.environ.get("GROQ_API_KEY"): it holds when the variable is absent (None)
or set to the empty string. -/
def keyFalsy : Option String → Bool
  | none => true
  | some s => s == ""

/-- Result of an embedded client function paired with the number of
chat-completion calls the run performed. -/
structure Outcome (α : Type) where
  result : α
  apiCalls : Nat

/-- Hard-coded fallback quiz, quiz_logic.py lines 15-48. -/
def get_default_quiz : List JValue :=
  [ .obj [ ("question", .str "What is the main purpose of Python?"),
           ("options", .arr [ .str "General-purpose programming",
                              .str "Only web development",
                              .str "Only data science",
                              .str "Only game development" ]),
           ("correct_answer", .str "General-purpose programming") ],
    .obj [ ("question", .str "Which of these is a core feature of Python?"),
           ("options", .arr [ .str "Dynamic typing",
                              .str "Static typing only",
                              .str "Manual memory management",
                              .str "Compilation required" ]),
           ("correct_answer", .str "Dynamic typing") ],
    .obj [ ("question", .str "What makes Python popular for beginners?"),
           ("options", .arr [ .str "Simple, readable syntax",
                              .str "Complex compilation process",
                              .str "Manual memory management",
                              .str "Strict typing system" ]),
           ("correct_answer", .str "Simple, readable syntax") ] ]

/-- Per-item validation of one quiz item, quiz_logic.py lines 97-103.
First the three key-containment tests of the all(...) generator, with
Python's left-to-right short-circuit; on success the two subscripts and the
membership test of line 101 (Python evaluates item["correct_answer"] first).
An .error result models an exception escaping to the handler of line 108. -/
def quizItemCheck (item : JValue) : Except Unit Bool :=
  match pyIn (.str "question") item with
  | .error e => .error e
  | .ok false => .ok false
  | .ok true =>
    match pyIn (.str "options") item with
    | .error e => .error e
    | .ok false => .ok false
    | .ok true =>
      match pyIn (.str "correct_answer") item with
      | .error e => .error e
      | .ok false => .ok false
      | .ok true =>
        match pySubscript item "correct_answer" with
        | .error e => .error e
        | .ok ca =>
          match pySubscript item "options" with
          | .error e => .error e
          | .ok opts => pyIn ca opts

/-- One quiz item passes validation without raising; a raised exception and a
failed check both send generate_quiz_for_video to the default quiz, so they
collapse to false. -/
def quizItemPasses (item : JValue) : Bool :=
  match quizItemCheck item with
  | .ok b => b
  | .error _ => false

/-- Embedding of generate_quiz_for_video, quiz_logic.py lines 50-110.
The api parameter is the behaviour of the single chat-completion call of
lines 78-86; apiCalls counts how many times that call was reached.  The
whole body sits in a try/except returning get_default_quiz, so the
embedding is total. -/
def generate_quiz_for_video (apiKey : Option String) (api : Completion)
    (video_title video_description : String) : Outcome (List JValue) :=
  if keyFalsy apiKey then
    { result := get_default_quiz, apiCalls := 0 }
  else
    match api with
    | .raises => { result := get_default_quiz, apiCalls := 1 }
    | .invalidJson => { result := get_default_quiz, apiCalls := 1 }
    | .json v =>
      match v with
      | .arr items =>
        if items.isEmpty then
          { result := get_default_quiz, apiCalls := 1 }
        else if items.all quizItemPasses then
          { result := items, apiCalls := 1 }
        else
          { result := get_default_quiz, apiCalls := 1 }
      | _ => { result := get_default_quiz, apiCalls := 1 }

/-- Hard-coded fallback question set, qa_logic.py lines 15-30. -/
def get_default_questions : List JValue :=
  [ .obj [ ("question", .str "Explain how Python handles variable assignment and memory management."),
           ("expected_concepts", .arr [ .str "dynamic typing",
                                        .str "memory allocation",
                                        .str "reference counting",
                                        .str "garbage collection" ]) ],
    .obj [ ("question", .str "What are the key differences between lists and tuples in Python, and when would you use each?"),
           ("expected_concepts", .arr [ .str "mutability",
                                        .str "immutability",
                                        .str "data structure",
                                        .str "performance",
                                        .str "use cases" ]) ],
    .obj [ ("question", .str "Describe Python's approach to object-oriented programming."),
           ("expected_concepts", .arr [ .str "classes",
                                        .str "objects",
                                        .str "inheritance",
                                        .str "encapsulation",
                                        .str "polymorphism" ]) ] ]

/-- Per-item validation of one Q&A item, qa_logic.py lines 85-91: the two
key-containment tests, then the subscript and the
isinstance-list-and-length-at-least-3 test of line 89. -/
def qaItemCheck (item : JValue) : Except Unit Bool :=
  match pyIn (.str "question") item with
  | .error e => .error e
  | .ok false => .ok false
  | .ok true =>
    match pyIn (.str "expected_concepts") item with
    | .error e => .error e
    | .ok false => .ok false
    | .ok true =>
      match pySubscript item "expected_concepts" with
      | .error e => .error e
      | .ok ec =>
        match ec with
        | .arr xs => .ok (decide (3 ≤ xs.length))
        | _ => .ok false

/-- One Q&A item passes validation without raising. -/
def qaItemPasses (item : JValue) : Bool :=
  match qaItemCheck item with
  | .ok b => b
  | .error _ => false

/-- Embedding of generate_qa_for_video, qa_logic.py lines 32-97, structured
exactly like generate_quiz_for_video with get_default_questions as the
fallback. -/
def generate_qa_for_video (apiKey : Option String) (api : Completion)
    (video_title video_description : String) : Outcome (List JValue) :=
  if keyFalsy apiKey then
    { result := get_default_questions, apiCalls := 0 }
  else
    match api with
    | .raises => { result := get_default_questions, apiCalls := 1 }
    | .invalidJson => { result := get_default_questions, apiCalls := 1 }
    | .json v =>
      match v with
      | .arr items =>
        if items.isEmpty then
          { result := get_default_questions, apiCalls := 1 }
        else if items.all qaItemPasses then
          { result := items, apiCalls := 1 }
        else
          { result := get_default_questions, apiCalls := 1 }
      | _ => { result := get_default_questions, apiCalls := 1 }

/-- Python's iterability test performed by ", ".join(x): joining succeeds
when x is a string (it iterates over one-character strings), a list all of
whose elements are strings, or a dict (whose JSON keys are strings); it
raises TypeError otherwise. -/
def pyJoinOk : JValue → Bool
  | .str _ => true
  | .arr xs => xs.all (fun x => match x with | .str _ => true | _ => false)
  | .obj _ => true
  | _ => false

/-- Exceptions possibly raised while the evaluation prompt is built,
qa_logic.py lines 110-113: the f-string evaluates question["question"], then
question["expected_concepts"], then joins the concepts.  These happen before
the chat-completion call. -/
def evalPromptCheck (question : JValue) : Except Unit Unit :=
  match pySubscript question "question" with
  | .error e => .error e
  | .ok _ =>
    match pySubscript question "expected_concepts" with
    | .error e => .error e
    | .ok ec => if pyJoinOk ec then .ok () else .error ()

/-- Python's float(x) on a JSON value: numbers pass through, booleans become
0 and 1, everything else raises.  Python would also parse a numeric string;
that case is modelled as a failure, and no claim depends on it. -/
def pyFloat : JValue → Except Unit Rat
  | .num q => .ok q
  | .bool b => .ok (if b then 1 else 0)
  | _ => .error ()

/-- Triple returned by the exception handler of qa_logic.py line 150. -/
def errorTriple : Rat × JValue × JValue :=
  (0, .str "Error evaluating answer", .arr [])

/-- Triple returned by the missing-credential branch, qa_logic.py line 105. -/
def unableTriple : Rat × JValue × JValue :=
  (0, .str "Unable to evaluate answer", .arr [])

/-- Tuple construction of qa_logic.py lines 142-146: evaluation.get raises
AttributeError unless the parsed value is a dict; the score is coerced with
float and defaults to 0.0, the feedback defaults to the empty string and the
covered concepts default to the empty list, both returned unchecked. -/
def extractEvaluation (v : JValue) : Except Unit (Rat × JValue × JValue) :=
  match v with
  | .obj fields =>
    match pyFloat ((fields.lookup "score").getD (.num 0)) with
    | .error e => .error e
    | .ok s =>
        .ok (s, (fields.lookup "feedback").getD (.str ""),
             (fields.lookup "concepts_covered").getD (.arr []))
  | _ => .error ()

/-- Embedding of evaluate_answer, qa_logic.py lines 99-150.  The single
chat-completion call of lines 128-136 is reached only when the credential is
truthy and the prompt was built without raising; every exception lands in the
handler of lines 148-150. -/
def evaluate_answer (apiKey : Option String) (api : Completion)
    (question : JValue) (user_answer : String) : Outcome (Rat × JValue × JValue) :=
  if keyFalsy apiKey then
    { result := unableTriple, apiCalls := 0 }
  else
    match evalPromptCheck question with
    | .error _ => { result := errorTriple, apiCalls := 0 }
    | .ok _ =>
      match api with
      | .raises => { result := errorTriple, apiCalls := 1 }
      | .invalidJson => { result := errorTriple, apiCalls := 1 }
      | .json v =>
        match extractEvaluation v with
        | .ok t => { result := t, apiCalls := 1 }
        | .error _ => { result := errorTriple, apiCalls := 1 }

/-- Condition under which the single evaluation attempt of evaluate_answer
fails once the credential is truthy: the prompt build raises, or the call
raises, or the response is not valid JSON, or the tuple extraction raises. -/
def evalAttemptFails (api : Completion) (question : JValue) : Bool :=
  match evalPromptCheck question with
  | .error _ => true
  | .ok _ =>
    match api with
    | .raises => true
    | .invalidJson => true
    | .json v =>
      match extractEvaluation v with
      | .error _ => true
      | .ok _ => false

/-- Pending HTTPException inside the endpoint body: FastAPI's HTTPException
carries a status code and a detail string. -/
structure HTTPExc where
  status_code : Nat
  detail : String

/-- String rendering str(e) of an HTTPException, used when the blanket
handler re-wraps a caught exception.  No claim depends on its exact form. -/
def httpExcStr (e : HTTPExc) : String :=
  toString e.status_code ++ ": " ++ e.detail

/-- HTTP response produced by the /qa endpoint: a 200 answer carrying the
qa list of the JSON body, or an error response with a status code and a
detail string. -/
inductive QaResponse where
  | ok (qa : List JValue)
  | httpError (status_code : Nat) (detail : String)

/-- Status code of a QaResponse. -/
def QaResponse.status : QaResponse → Nat
  | .ok _ => 200
  | .httpError s _ => s

/-- Body of the try block of get_qa, main.py lines 86-98: raise 400 when the
title is falsy (the empty string, for a string-typed query parameter), raise
404 when the generated list is empty, otherwise answer with the list. -/
def get_qa_try (apiKey : Option String) (api : Completion)
    (video_id title description : String) : Except HTTPExc (List JValue) :=
  if title == "" then
    .error { status_code := 400, detail := "Title is required" }
  else
    let qa := (generate_qa_for_video apiKey api title description).result
    if qa.isEmpty then
      .error { status_code := 404, detail := "Failed to generate Q&A" }
    else
      .ok qa

/-- Embedding of the get_qa endpoint, main.py lines 82-101.  The except
clause of line 99 catches every Exception — including the HTTPExceptions
raised inside the try block, since FastAPI's HTTPException subclasses
Exception — and re-raises HTTPException(500, str(e)), which FastAPI renders
as a 500 response. -/
def get_qa (apiKey : Option String) (api : Completion)
    (video_id title description : String) : QaResponse :=
  match get_qa_try apiKey api video_id title description with
  | .ok qa => .ok qa
  | .error e => .httpError 500 (httpExcStr e)

/-- Record returned by the video search provider; only the title takes part
in the filter (through result.get("title", ""), hence an optional field),
the remaining fields are carried opaquely. -/
structure SearchResult where
  title : Option String
  link : String
  description : String
  duration : String
  thumbnails : String
deriving DecidableEq, Repr

/-- Lower-casing applied by str.lower, character by character; Char.toLower
covers the ASCII range, which is all the filter and the claims exercise. -/
def strLower (s : String) : String :=
  String.mk (s.data.map Char.toLower)

/-- Filter predicate of the list comprehension in search_youtube_playlists,
main.py lines 43-47 and api.py lines 26-30: the lower-cased title contains
the substring playlist or the substring course. -/
def keepsPlaylistOrCourse (r : SearchResult) : Bool :=
  strContains (strLower (r.title.getD "")) "playlist" ||
  strContains (strLower (r.title.getD "")) "course"

/-- Client-side filter applied by search_youtube_playlists to the provider's
results, main.py lines 43-47 and api.py lines 26-30. -/
def searchPlaylistsFilter (results : List SearchResult) : List SearchResult :=
  results.filter keepsPlaylistOrCourse

/-- Claim-side reading of the quiz invariant: the item is an object carrying
correct_answer and options, and the correct answer is contained in the
options under Python's containment operator (membership for option lists). -/
def hasCorrectAnswerInOptions (item : JValue) : Bool :=
  match item with
  | .obj fields =>
    match fields.lookup "correct_answer", fields.lookup "options" with
    | some ca, some opts =>
      match pyIn ca opts with
      | .ok b => b
      | .error _ => false
    | _, _ => false
  | _ => false

/-- Claim-side reading of the quiz shape: the item is an object whose
options field is an array of exactly 4 strings. -/
def optionsFourStrings (item : JValue) : Bool :=
  match item with
  | .obj fields =>
    match fields.lookup "options" with
    | some (.arr xs) =>
      xs.length == 4 && xs.all (fun x => match x with | .str _ => true | _ => false)
    | _ => false
  | _ => false

/-- Claim-side reading of the Q&A invariant: the item is an object whose
expected_concepts field is a list with at least 3 entries. -/
def conceptsAtLeastThree (item : JValue) : Bool :=
  match item with
  | .obj fields =>
    match fields.lookup "expected_concepts" with
    | some (.arr xs) => decide (3 ≤ xs.length)
    | _ => false
  | _ => false

/-! Helper lemmas shared by the claim theorems. -/

theorem pySubscript_ok {item : JValue} {key : String} {v : JValue}
    (h : pySubscript item key = .ok v) :
    ∃ fields, item = .obj fields ∧ fields.lookup key = some v := by
  unfold pySubscript at h
  split at h
  case h_1 fields =>
    split at h
    case h_1 w hw =>
      cases h
      exact ⟨fields, rfl, hw⟩
    case h_2 => exact absurd h (by simp)
  case h_2 => exact absurd h (by simp)

theorem quizItemPasses_imp_member (item : JValue) :
    quizItemPasses item = true → hasCorrectAnswerInOptions item = true := by
  intro h
  unfold quizItemPasses at h
  split at h
  case h_2 => exact absurd h (by simp)
  case h_1 b hcheck =>
    subst h
    unfold quizItemCheck at hcheck
    split at hcheck
    case h_1 => exact absurd hcheck (by simp)
    case h_2 => exact absurd hcheck (by simp)
    case h_3 hq =>
      split at hcheck
      case h_1 => exact absurd hcheck (by simp)
      case h_2 => exact absurd hcheck (by simp)
      case h_3 ho =>
        split at hcheck
        case h_1 => exact absurd hcheck (by simp)
        case h_2 => exact absurd hcheck (by simp)
        case h_3 hc =>
          split at hcheck
          case h_1 => exact absurd hcheck (by simp)
          case h_2 ca hca =>
            split at hcheck
            case h_1 => exact absurd hcheck (by simp)
            case h_2 opts hopts =>
              obtain ⟨fields, hitem, hlca⟩ := pySubscript_ok hca
              obtain ⟨fields2, hitem2, hlopts⟩ := pySubscript_ok hopts
              subst hitem
              injection hitem2 with hf
              subst hf
              unfold hasCorrectAnswerInOptions
              simp only [hlca, hlopts, hcheck]

theorem qaItemPasses_imp_concepts (item : JValue) :
    qaItemPasses item = true → conceptsAtLeastThree item = true := by
  intro h
  unfold qaItemPasses at h
  split at h
  case h_2 => exact absurd h (by simp)
  case h_1 b hcheck =>
    subst h
    unfold qaItemCheck at hcheck
    split at hcheck
    case h_1 => exact absurd hcheck (by simp)
    case h_2 => exact absurd hcheck (by simp)
    case h_3 hq =>
      split at hcheck
      case h_1 => exact absurd hcheck (by simp)
      case h_2 => exact absurd hcheck (by simp)
      case h_3 hc =>
        split at hcheck
        case h_1 => exact absurd hcheck (by simp)
        case h_2 ec hec =>
          obtain ⟨fields, hitem, hlec⟩ := pySubscript_ok hec
          subst hitem
          split at hcheck
          case h_1 xs =>
            injection hcheck with hd
            unfold conceptsAtLeastThree
            simp only [hlec]
            exact hd
          case h_2 => exact absurd hcheck (by simp)

theorem generate_quiz_result_cases (apiKey : Option String) (api : Completion)
    (t d : String) :
    (generate_quiz_for_video apiKey api t d).result = get_default_quiz ∨
    ((generate_quiz_for_video apiKey api t d).result ≠ [] ∧
     (generate_quiz_for_video apiKey api t d).result.all quizItemPasses = true) := by
  unfold generate_quiz_for_video
  split
  · exact Or.inl rfl
  · cases api with
    | raises => exact Or.inl rfl
    | invalidJson => exact Or.inl rfl
    | json v =>
      cases v with
      | arr items =>
        cases hi : items.isEmpty with
        | true => exact Or.inl (by simp [hi])
        | false =>
          cases ha : items.all quizItemPasses with
          | false => exact Or.inl (by simp [hi, ha])
          | true =>
            have hne : items ≠ [] := by
              intro he
              subst he
              simp at hi
            refine Or.inr ⟨?_, ?_⟩
            · simpa [hi, ha] using hne
            · simp [hi, ha]
      | null => exact Or.inl rfl
      | bool b => exact Or.inl rfl
      | num q => exact Or.inl rfl
      | str s => exact Or.inl rfl
      | obj fields => exact Or.inl rfl

theorem generate_qa_result_cases (apiKey : Option String) (api : Completion)
    (t d : String) :
    (generate_qa_for_video apiKey api t d).result = get_default_questions ∨
    ((generate_qa_for_video apiKey api t d).result ≠ [] ∧
     (generate_qa_for_video apiKey api t d).result.all qaItemPasses = true) := by
  unfold generate_qa_for_video
  split
  · exact Or.inl rfl
  · cases api with
    | raises => exact Or.inl rfl
    | invalidJson => exact Or.inl rfl
    | json v =>
      cases v with
      | arr items =>
        cases hi : items.isEmpty with
        | true => exact Or.inl (by simp [hi])
        | false =>
          cases ha : items.all qaItemPasses with
          | false => exact Or.inl (by simp [hi, ha])
          | true =>
            have hne : items ≠ [] := by
              intro he
              subst he
              simp at hi
            refine Or.inr ⟨?_, ?_⟩
            · simpa [hi, ha] using hne
            · simp [hi, ha]
      | null => exact Or.inl rfl
      | bool b => exact Or.inl rfl
      | num q => exact Or.inl rfl
      | str s => exact Or.inl rfl
      | obj fields => exact Or.inl rfl

theorem get_default_quiz_ne_nil : get_default_quiz ≠ [] := by
  simp [get_default_quiz]

theorem get_default_quiz_all_member :
    get_default_quiz.all hasCorrectAnswerInOptions = true := by rfl

theorem get_default_questions_ne_nil : get_default_questions ≠ [] := by
  simp [get_default_questions]

theorem get_default_questions_all_concepts :
    get_default_questions.all conceptsAtLeastThree = true := by rfl

/-- C1: for every credential state, every input pair and every behaviour of
the upstream completion service (arbitrary returned text or a raised
exception), generate_quiz_for_video returns a non-empty list of items in
which every item's correct_answer is contained in that item's options; the
embedding is a total function, mirroring that the try/except of
quiz_logic.py lines 54-110 lets no exception escape to the caller. -/
theorem generate_quiz_nonempty_answers_in_options
    (apiKey : Option String) (api : Completion)
    (video_title video_description : String) :
    (generate_quiz_for_video apiKey api video_title video_description).result ≠ [] ∧
    (generate_quiz_for_video apiKey api video_title video_description).result.all
      hasCorrectAnswerInOptions = true := by
  rcases generate_quiz_result_cases apiKey api video_title video_description with
    hd | ⟨hne, hall⟩
  · rw [hd]
    exact ⟨get_default_quiz_ne_nil, get_default_quiz_all_member⟩
  · refine ⟨hne, ?_⟩
    rw [List.all_eq_true] at hall ⊢
    intro x hx
    exact quizItemPasses_imp_member x (hall x hx)

/-- C8: for every credential state, every input pair and every behaviour of
the upstream completion service, generate_qa_for_video returns a non-empty
list in which every item's expected_concepts field is a list with at least 3
entries. -/
theorem generate_qa_nonempty_concepts_at_least_three
    (apiKey : Option String) (api : Completion)
    (video_title video_description : String) :
    (generate_qa_for_video apiKey api video_title video_description).result ≠ [] ∧
    (generate_qa_for_video apiKey api video_title video_description).result.all
      conceptsAtLeastThree = true := by
  rcases generate_qa_result_cases apiKey api video_title video_description with
    hd | ⟨hne, hall⟩
  · rw [hd]
    exact ⟨get_default_questions_ne_nil, get_default_questions_all_concepts⟩
  · refine ⟨hne, ?_⟩
    rw [List.all_eq_true] at hall ⊢
    intro x hx
    exact qaItemPasses_imp_concepts x (hall x hx)

/-- C3: when the credential variable is set and the upstream completion call
returns text that is not valid JSON, generate_quiz_for_video returns exactly
the hard-coded default quiz, a list of 3 items (json.loads raises at
quiz_logic.py line 90 and the handler of lines 108-110 returns
get_default_quiz). -/
theorem generate_quiz_invalid_json_returns_default
    (k video_title video_description : String) :
    (generate_quiz_for_video (some k) .invalidJson video_title video_description).result
      = get_default_quiz ∧
    get_default_quiz.length = 3 := by
  refine ⟨?_, rfl⟩
  unfold generate_quiz_for_video
  split
  · rfl
  · rfl

/-- C5: with the credential absent from the environment,
generate_quiz_for_video, generate_qa_for_video and evaluate_answer each
return their fixed default payload with zero chat-completion calls, the same
result for every possible behaviour of the upstream service. -/
theorem missing_key_defaults_without_api_call
    (api : Completion) (video_title video_description : String)
    (question : JValue) (user_answer : String) :
    generate_quiz_for_video none api video_title video_description
      = { result := get_default_quiz, apiCalls := 0 } ∧
    generate_qa_for_video none api video_title video_description
      = { result := get_default_questions, apiCalls := 0 } ∧
    evaluate_answer none api question user_answer
      = { result := unableTriple, apiCalls := 0 } :=
  ⟨rfl, rfl, rfl⟩

/-- C2, documenting the divergence: a request to the /qa endpoint whose title
query parameter is empty is answered with status 500, never the documented
400.  The HTTPException(400) raised at main.py line 89 is an Exception, so
the endpoint's own handler at line 99 catches it and re-raises
HTTPException(500, str(e)). -/
theorem get_qa_empty_title_status_500
    (apiKey : Option String) (api : Completion) (video_id description : String) :
    (get_qa apiKey api video_id "" description).status = 500 ∧
    (get_qa apiKey api video_id "" description).status ≠ 400 :=
  ⟨rfl, (by decide : (500 : Nat) ≠ 400)⟩

/-- C10: for every request with a non-empty title, every credential state and
every upstream behaviour, generate_qa_for_video returns a non-empty list, so
the 404 branch of the /qa endpoint (main.py lines 94-96) is unreachable and
the endpoint answers 200 with that list. -/
theorem get_qa_404_unreachable
    (apiKey : Option String) (api : Completion)
    (video_id title description : String) (htitle : title ≠ "") :
    (generate_qa_for_video apiKey api title description).result ≠ [] ∧
    get_qa apiKey api video_id title description
      = .ok (generate_qa_for_video apiKey api title description).result ∧
    (get_qa apiKey api video_id title description).status ≠ 404 := by
  have hne : (generate_qa_for_video apiKey api title description).result ≠ [] := by
    rcases generate_qa_result_cases apiKey api title description with hd | ⟨h, _⟩
    · rw [hd]
      exact get_default_questions_ne_nil
    · exact h
  have hi : ((generate_qa_for_video apiKey api title description).result).isEmpty = false := by
    cases hq : (generate_qa_for_video apiKey api title description).result with
    | nil => exact absurd hq hne
    | cons x xs => rfl
  have ht : (title == "") = false := beq_eq_false_iff_ne.mpr htitle
  have hok : get_qa apiKey api video_id title description
      = .ok (generate_qa_for_video apiKey api title description).result := by
    unfold get_qa get_qa_try
    simp [ht, hi]
  refine ⟨hne, hok, ?_⟩
  rw [hok]
  simp [QaResponse.status]

/-- Witness for C10 at a concrete request. -/
theorem get_qa_404_unreachable_witness :
    (generate_qa_for_video none .raises "Python Basics" "").result ≠ [] ∧
    get_qa none .raises "vid1" "Python Basics" ""
      = .ok (generate_qa_for_video none .raises "Python Basics" "").result ∧
    (get_qa none .raises "vid1" "Python Basics" "").status ≠ 404 :=
  get_qa_404_unreachable none .raises "vid1" "Python Basics" "" (by decide)

/-- Sample well-formed question object used by concrete instantiations. -/
def sampleQuestion : JValue :=
  .obj [ ("question", .str "Q1"),
         ("expected_concepts", .arr [.str "c1", .str "c2", .str "c3"]) ]

/-- C4, counterexample: with the credential absent — one of the failure modes
the claim enumerates — evaluate_answer returns the triple with feedback
"Unable to evaluate answer" (qa_logic.py line 105), which differs from the
claimed (0.0, "Error evaluating answer", []). -/
theorem evaluate_answer_missing_key_message_cex :
    (evaluate_answer none .raises sampleQuestion "my answer").result = unableTriple ∧
    unableTriple ≠ errorTriple := by
  refine ⟨rfl, ?_⟩
  intro h
  have h2 := congrArg (fun t => t.2.1) h
  simp only [unableTriple, errorTriple] at h2
  injection h2 with h3
  exact absurd h3 (by decide)

/-- C4 as amended: evaluate_answer makes at most one upstream attempt; when
the credential is absent (or empty) it returns exactly
(0.0, "Unable to evaluate answer", []); when the credential is truthy and the
single attempt fails for any reason — prompt building raises on a malformed
question, the call raises, the response is not valid JSON, or the tuple
extraction raises — it returns exactly (0.0, "Error evaluating answer", []). -/
theorem evaluate_answer_failure_behaviour
    (apiKey : Option String) (api : Completion)
    (question : JValue) (user_answer : String) :
    (evaluate_answer apiKey api question user_answer).apiCalls ≤ 1 ∧
    (keyFalsy apiKey = true →
      (evaluate_answer apiKey api question user_answer).result = unableTriple) ∧
    (keyFalsy apiKey = false → evalAttemptFails api question = true →
      (evaluate_answer apiKey api question user_answer).result = errorTriple) := by
  refine ⟨?_, ?_, ?_⟩
  · unfold evaluate_answer
    repeat' split
    all_goals first
      | exact Nat.zero_le 1
      | exact Nat.le_refl 1
  · intro hk
    simp [evaluate_answer, hk]
  · intro hk hfail
    unfold evaluate_answer
    rw [if_neg (by simp [hk])]
    cases hpc : evalPromptCheck question with
    | error e => rfl
    | ok u =>
      cases api with
      | raises => rfl
      | invalidJson => rfl
      | json v =>
        cases hex : extractEvaluation v with
        | error e2 => simp only [hex]
        | ok t =>
          exfalso
          simp [evalAttemptFails, hpc, hex] at hfail

/-- Witness for C4 at a concrete input: credential present, upstream call
raises, the error triple comes back from a single attempt. -/
theorem evaluate_answer_failure_behaviour_witness :
    (evaluate_answer (some "gsk_test") .raises sampleQuestion "my answer").apiCalls ≤ 1 ∧
    (evaluate_answer (some "gsk_test") .raises sampleQuestion "my answer").result
      = errorTriple :=
  ⟨(evaluate_answer_failure_behaviour (some "gsk_test") .raises sampleQuestion "my answer").1,
   (evaluate_answer_failure_behaviour (some "gsk_test") .raises sampleQuestion "my answer").2.2
     (by decide) (by decide)⟩

/-- C6, counterexample: the upstream returns the well-formed JSON object
with score 2, feedback and concepts present, and evaluate_answer passes the
score through unclamped — the returned score is 2, outside the interval
0 to 1 (qa_logic.py line 143 applies float with no clamping). -/
theorem evaluate_answer_score_unclamped_cex :
    (evaluate_answer (some "gsk_test")
        (.json (.obj [ ("score", .num 2), ("feedback", .str "great"),
                       ("concepts_covered", .arr []) ]))
        sampleQuestion "my answer").result.1 = 2 ∧
    ¬ ((2 : Rat) ≤ 1) := by
  refine ⟨rfl, by norm_num⟩

/-- C6 as amended: the score component equals the upstream object's score
value coerced to a number — no clamping is applied — so it lies in the
interval 0 to 1 exactly when the upstream score does; in particular, for a
well-formed object whose score is a number between 0 and 1, the returned
score is that number and lies in the interval. -/
theorem evaluate_answer_score_passthrough_in_range
    (k : String) (fields : List (String × JValue)) (question : JValue)
    (user_answer : String) (s : Rat)
    (hk : keyFalsy (some k) = false)
    (hp : evalPromptCheck question = .ok ())
    (hs : fields.lookup "score" = some (.num s))
    (h0 : 0 ≤ s) (h1 : s ≤ 1) :
    (evaluate_answer (some k) (.json (.obj fields)) question user_answer).result.1 = s ∧
    0 ≤ (evaluate_answer (some k) (.json (.obj fields)) question user_answer).result.1 ∧
    (evaluate_answer (some k) (.json (.obj fields)) question user_answer).result.1 ≤ 1 := by
  have hres :
      (evaluate_answer (some k) (.json (.obj fields)) question user_answer).result.1 = s := by
    unfold evaluate_answer
    rw [if_neg (by simp [hk])]
    simp only [hp, extractEvaluation, hs]
    rfl
  refine ⟨hres, ?_, ?_⟩
  · rw [hres]; exact h0
  · rw [hres]; exact h1

/-- Witness for C6 at a concrete input with upstream score one half. -/
theorem evaluate_answer_score_passthrough_in_range_witness :
    (evaluate_answer (some "gsk_test")
        (.json (.obj [ ("score", .num (1/2)), ("feedback", .str "ok"),
                       ("concepts_covered", .arr []) ]))
        sampleQuestion "my answer").result.1 = 1/2 ∧
    0 ≤ (evaluate_answer (some "gsk_test")
        (.json (.obj [ ("score", .num (1/2)), ("feedback", .str "ok"),
                       ("concepts_covered", .arr []) ]))
        sampleQuestion "my answer").result.1 ∧
    (evaluate_answer (some "gsk_test")
        (.json (.obj [ ("score", .num (1/2)), ("feedback", .str "ok"),
                       ("concepts_covered", .arr []) ]))
        sampleQuestion "my answer").result.1 ≤ 1 :=
  evaluate_answer_score_passthrough_in_range "gsk_test"
    [ ("score", .num (1/2)), ("feedback", .str "ok"), ("concepts_covered", .arr []) ]
    sampleQuestion "my answer" (1/2) (by decide) rfl rfl (by norm_num) (by norm_num)

/-- Upstream quiz item that passes the validation of quiz_logic.py lines
97-103 although its options list has a single element. -/
def shortOptionsItem : JValue :=
  .obj [ ("question", .str "Pick one"),
         ("options", .arr [.str "a"]),
         ("correct_answer", .str "a") ]

/-- C7, counterexample: generate_quiz_for_video returns the upstream payload
whose only item carries a 1-element options list — the validation never
checks the shape of options, so the returned sequence contains an item whose
options is not a sequence of exactly 4 strings. -/
theorem generate_quiz_options_shape_cex :
    (generate_quiz_for_video (some "gsk_test") (.json (.arr [shortOptionsItem]))
        "t" "d").result = [shortOptionsItem] ∧
    ([shortOptionsItem].all optionsFourStrings) = false := by
  exact ⟨rfl, rfl⟩

/-- C7 as amended: whenever generate_quiz_for_video returns the default quiz
(in particular whenever validation fails), every item's options field is a
sequence of exactly 4 strings; for validated upstream payloads the options
shape is not enforced. -/
theorem default_quiz_options_are_four_strings
    (apiKey : Option String) (api : Completion)
    (video_title video_description : String)
    (h : (generate_quiz_for_video apiKey api video_title video_description).result
          = get_default_quiz) :
    (generate_quiz_for_video apiKey api video_title video_description).result.all
      optionsFourStrings = true := by
  rw [h]
  rfl

/-- Witness for the amended C7 on the missing-credential path. -/
theorem default_quiz_options_are_four_strings_witness :
    (generate_quiz_for_video none .raises "t" "d").result.all
      optionsFourStrings = true :=
  default_quiz_options_are_four_strings none .raises "t" "d" rfl

/-- Search result with title Intro Playlist. -/
def introPlaylist : SearchResult :=
  { title := some "Intro Playlist", link := "l1", description := "",
    duration := "", thumbnails := "" }

/-- Search result with title Random Video. -/
def randomVideo : SearchResult :=
  { title := some "Random Video", link := "l2", description := "",
    duration := "", thumbnails := "" }

/-- Search result with title Full Course. -/
def fullCourse : SearchResult :=
  { title := some "Full Course", link := "l3", description := "",
    duration := "", thumbnails := "" }

/-- C9: the client-side filter of search_youtube_playlists keeps exactly the
results whose lower-cased title contains the substring playlist or the
substring course, in the provider's order (the kept list is a sublist of the
input); on the three documented titles it retains the first and third. -/
theorem search_filter_keeps_playlist_or_course (results : List SearchResult) :
    (searchPlaylistsFilter results).Sublist results ∧
    (∀ r : SearchResult, r ∈ searchPlaylistsFilter results ↔
        r ∈ results ∧
          (strContains (strLower (r.title.getD "")) "playlist" = true ∨
           strContains (strLower (r.title.getD "")) "course" = true)) ∧
    searchPlaylistsFilter [introPlaylist, randomVideo, fullCourse]
      = [introPlaylist, fullCourse] := by
  refine ⟨List.filter_sublist results, ?_, ?_⟩
  · intro r
    simp [searchPlaylistsFilter, List.mem_filter, keepsPlaylistOrCourse]
  · decide
